import Mathlib

/-!
Verification of the free-list allocator in `src/alloc.c` (functions `split`,
`find_prev`, `find_next`, `remove_free_block`, `coalesce`, `do_alloc`,
`tumalloc`, `tucalloc`, `turealloc`, `tufree`).

The C heap is modelled shallowly: machine addresses are natural numbers
(0 plays the role of `NULL`), the 16-byte metadata record in front of every
block is an atomic `Cell` stored in `cells`, payload bytes live in `data`,
and the process break is the pair `brk`/`limit` (`sbrk` fails past `limit`).
Every C loop is modelled with explicit fuel; a result of `none` marks a run
that does not terminate within the given fuel.
-/

set_option autoImplicit false

namespace Alloc

/-- The sentinel magic value stamped into every live header (alloc.c lines 156, 190). -/
def MAGIC : Nat := 0x01234567

/-- The alignment of memory blocks (alloc.c line 9). -/
def ALIGNMENT : Nat := 16

/-- Modelled from the spec: `alloc.h`, which declares the `header` and
`free_block` structs, is not among the sources.  The spec describes a `Header`
record `{size, magic}` and a free-list node `{size, next}` that occupy the same
starting address with the same first-field layout, so both records are modelled
as one 16-byte metadata record and `sizeof(header) = sizeof(free_block) = 16`. -/
def hsz : Nat := 16

/-- One metadata record: `sz` models the `size` field; `nxt` models
`free_block.next`, aliased with `header.magic` (same memory, per the spec's
aliasing invariant). -/
structure Cell where
  sz : Nat
  nxt : Nat
deriving DecidableEq

/-- Allocator state: metadata records (`cells`, one per base address), payload
bytes (`data`), the break pointer (`brk`), the OS ceiling past which `sbrk`
fails (`limit`), the free-list head `HEAD` (`head`, 0 = NULL) and the number of
diagnostics printed so far (`diag`). -/
structure AllocState where
  cells : Nat → Cell
  data : Nat → Nat
  brk : Nat
  limit : Nat
  head : Nat
  diag : Nat

/-- Point update of the metadata store. -/
def writeCell (m : Nat → Cell) (a : Nat) (c : Cell) : Nat → Cell :=
  fun x => if x = a then c else m x

/-- Write only the `size` field of the record at `a`. -/
def updSz (m : Nat → Cell) (a v : Nat) : Nat → Cell :=
  writeCell m a ⟨v, (m a).nxt⟩

/-- Write only the `next`/`magic` field of the record at `a`. -/
def updNxt (m : Nat → Cell) (a v : Nat) : Nat → Cell :=
  writeCell m a ⟨(m a).sz, v⟩

/-- `memset(p, v, n)` on the payload byte store. -/
def memsetB (d : Nat → Nat) (p v n : Nat) : Nat → Nat :=
  fun x => if p ≤ x ∧ x < p + n then v else d x

/-- `memcpy(dst, src, n)` on the payload byte store. -/
def memcpyB (d : Nat → Nat) (dst src n : Nat) : Nat → Nat :=
  fun x => if dst ≤ x ∧ x < dst + n then d (src + (x - dst)) else d x

/-- 2^64; `size_t` products wrap modulo this (alloc.c line 209 is not
overflow-checked). -/
def W64 : Nat := 2 ^ 64

/-- The padding `ag` computed by `do_alloc` (alloc.c lines 142-143):
`align = pointer & (ALIGNMENT-1); ag = (align == 0) ? 0 : ALIGNMENT - align`. -/
def pad (pointer : Nat) : Nat :=
  if pointer % ALIGNMENT = 0 then 0 else ALIGNMENT - pointer % ALIGNMENT

/-- `split` (alloc.c lines 20-34).  Returns `none` when the block cannot be
split (the C function returns `NULL` and writes nothing); otherwise returns
the mutated state together with the returned pointer (`block` itself). -/
def split (s : AllocState) (block size : Nat) : Option (AllocState × Nat) :=
  if (s.cells block).sz < size + hsz then
    none
  else
    let split_pnt := block + size + hsz
    -- new_block->size = block->size - size - sizeof(free_block);
    -- new_block->next = block->next;
    let cells1 := writeCell s.cells split_pnt
      ⟨(s.cells block).sz - size - hsz, (s.cells block).nxt⟩
    -- block->size = size;
    let cells2 := updSz cells1 block size
    some ({ s with cells := cells2 }, block)

/-- The scan of `find_prev` (alloc.c lines 42-51), fuelled.  `some 0` is the C
function returning `NULL`; `none` is fuel exhaustion (a non-terminating scan). -/
def find_prevF (cells : Nat → Cell) (block : Nat) : Nat → Nat → Option Nat
  | 0, _ => none
  | fuel + 1, curr =>
    if curr = 0 then some 0
    else if curr + (cells curr).sz + hsz = block then some curr
    else find_prevF cells block fuel (cells curr).nxt

/-- The scan of `find_next` (alloc.c lines 59-69), fuelled; `block_end` is
computed by the caller once, as in the source. -/
def find_nextF (cells : Nat → Cell) (block_end : Nat) : Nat → Nat → Option Nat
  | 0, _ => none
  | fuel + 1, curr =>
    if curr = 0 then some 0
    else if curr = block_end then some curr
    else find_nextF cells block_end fuel (cells curr).nxt

/-- The interior-node loop of `remove_free_block` (alloc.c lines 82-88). -/
def removeLoop (cells : Nat → Cell) (block : Nat) : Nat → Nat → Option (Nat → Cell)
  | 0, _ => none
  | fuel + 1, curr =>
    if curr = 0 then some cells
    else if (cells curr).nxt = block then some (updNxt cells curr (cells block).nxt)
    else removeLoop cells block fuel (cells curr).nxt

/-- `remove_free_block` (alloc.c lines 76-89). -/
def remove_free_block (s : AllocState) (block fuel : Nat) : Option AllocState :=
  if s.head = block then
    some { s with head := (s.cells block).nxt }
  else
    match removeLoop s.cells block fuel s.head with
    | none => none
    | some cells1 => some { s with cells := cells1 }

/-- `coalesce` (alloc.c lines 97-131).  Both neighbor scans run before any
merge, exactly as in the source; the returned pointer is the final merged
block. -/
def coalesce (s : AllocState) (block0 fuel : Nat) : Option (Nat × AllocState) :=
  if block0 = 0 then some (0, s)
  else
    match find_prevF s.cells block0 fuel s.head with
    | none => none
    | some prev =>
      match find_nextF s.cells (block0 + (s.cells block0).sz + hsz) fuel s.head with
      | none => none
      | some next =>
        -- Coalesce with previous block if it is contiguous.
        let step1 : Nat × AllocState :=
          if prev ≠ 0 ∧ prev + (s.cells prev).sz + hsz = block0 then
            let cells1 := updSz s.cells prev ((s.cells prev).sz + (s.cells block0).sz + hsz)
            let cells2 :=
              if (cells1 prev).nxt = block0 then updNxt cells1 prev ((cells1 block0).nxt)
              else cells1
            (prev, { s with cells := cells2 })
          else (block0, s)
        let block1 := step1.1
        let s1 := step1.2
        -- Coalesce with next block if it is contiguous.
        let s2 :=
          if next ≠ 0 ∧ block1 + (s1.cells block1).sz + hsz = next then
            let cells3 := updSz s1.cells block1
              ((s1.cells block1).sz + (s1.cells next).sz + hsz)
            let cells4 := updNxt cells3 block1 ((cells3 next).nxt)
            { s1 with cells := cells4 }
          else s1
        some (block1, s2)

/-- `do_alloc` (alloc.c lines 139-159): read the break, pad to the next
16-byte boundary, grow the break, stamp a header, return the payload address.
An `sbrk` past `limit` fails and returns `(0, s)` (the C function returns
`NULL` with the break unchanged). -/
def do_alloc (s : AllocState) (size : Nat) : Nat × AllocState :=
  let pointer := s.brk
  let ag := pad pointer
  if s.brk + (size + ag + hsz) > s.limit then (0, s)
  else
    let s1 : AllocState := { s with brk := s.brk + (size + ag + hsz) }
    let hd := pointer + ag
    let s2 : AllocState := { s1 with cells := writeCell s1.cells hd ⟨size, MAGIC⟩ }
    (hd + hsz, s2)

/-- The first-fit scan of `tumalloc` (alloc.c lines 176-195) together with the
fall-through to `do_alloc` at line 197. -/
def mallocLoop (s : AllocState) (size : Nat) : Nat → Nat → Option (Nat × AllocState)
  | 0, _ => none
  | fuel + 1, current =>
    if current = 0 then some (do_alloc s size)
    else if size + hsz ≤ (s.cells current).sz then
      match split s current (size + hsz) with
      | none => some (0, s)          -- split returned NULL: tumalloc returns NULL
      | some (s1, pointer) =>
        match remove_free_block s1 pointer fuel with
        | none => none
        | some s2 =>
          let cells1 := updSz s2.cells pointer size
          let cells2 := updNxt cells1 pointer MAGIC
          some (pointer + hsz, { s2 with cells := cells2 })
    else mallocLoop s size fuel (s.cells current).nxt

/-- `tumalloc` (alloc.c lines 167-199). -/
def tumalloc (s : AllocState) (size fuel : Nat) : Option (Nat × AllocState) :=
  if s.head = 0 then some (do_alloc s size)
  else mallocLoop s size fuel s.head

/-- `tucalloc` (alloc.c lines 208-218); the product `size * num` is `size_t`
arithmetic, i.e. taken modulo 2^64. -/
def tucalloc (s : AllocState) (num size fuel : Nat) : Option (Nat × AllocState) :=
  match tumalloc s (size * num % W64) fuel with
  | none => none
  | some (pointer, s1) =>
    if pointer = 0 then some (0, s1)
    else some (pointer, { s1 with data := memsetB s1.data pointer 0 (size * num % W64) })

/-- `tufree` (alloc.c lines 259-279). -/
def tufree (s : AllocState) (ptr fuel : Nat) : Option AllocState :=
  if ptr = 0 then some s
  else
    let hdr := ptr - hsz
    if (s.cells hdr).nxt = MAGIC then
      -- block->size = hdr->size; block->next = HEAD;
      let cells1 := updSz s.cells hdr (s.cells hdr).sz
      let cells2 := updNxt cells1 hdr s.head
      let s1 : AllocState := { s with cells := cells2 }
      match coalesce s1 hdr fuel with
      | none => none
      | some (blk, s2) => some { s2 with head := blk }
    else some s

/-- The state after `tufree`'s two node-field writes, before `coalesce` runs
(alloc.c lines 269-271). -/
def pushedState (s : AllocState) (hdr : Nat) : AllocState :=
  { s with cells := updNxt (updSz s.cells hdr (s.cells hdr).sz) hdr s.head }

/-- Result of `turealloc`: either a returned pointer, or the undefined value
produced when control falls off the end of the function (alloc.c line 252,
reached on the corruption path). -/
inductive ReallocResult where
  | ptr (p : Nat)
  | unspecified
deriving DecidableEq

/-- `turealloc` (alloc.c lines 227-252). -/
def turealloc (s : AllocState) (ptr new_size fuel : Nat) :
    Option (ReallocResult × AllocState) :=
  if ptr = 0 then
    match tumalloc s new_size fuel with
    | none => none
    | some (p, s1) => some (.ptr p, s1)
  else
    match tumalloc s new_size fuel with
    | none => none
    | some (new_pointer, s1) =>
      if new_pointer = 0 then some (.ptr 0, s1)
      else
        let hdr := ptr - hsz
        if (s1.cells hdr).nxt = MAGIC then
          -- memcpy(new_pointer, ptr, hdr->size); tufree(ptr); return new_pointer;
          let s2 : AllocState :=
            { s1 with data := memcpyB s1.data new_pointer ptr ((s1.cells hdr).sz) }
          match tufree s2 ptr fuel with
          | none => none
          | some s3 => some (.ptr new_pointer, s3)
        else
          -- printf("Memory Corruption Error Detected in turealloc\n");
          -- then control falls off the end of the function.
          some (.unspecified, { s1 with diag := s1.diag + 1 })

/-- A fresh heap: `HEAD = NULL`, empty diagnostics, break at `brk0`, and
zero-filled memory (fresh `sbrk` pages are zero-filled). -/
def initState (brk0 limit : Nat) : AllocState :=
  { cells := fun _ => ⟨0, 0⟩, data := fun _ => 0
    brk := brk0, limit := limit, head := 0, diag := 0 }

/-- Pointer component of an allocation result (0 when the run diverged). -/
def getPtr (r : Option (Nat × AllocState)) : Nat :=
  match r with
  | some p => p.1
  | none => 0

/-- State component of an allocation result, with a default. -/
def getSt (r : Option (Nat × AllocState)) (d : AllocState) : AllocState :=
  match r with
  | some p => p.2
  | none => d

/-- State component of a `tufree` result, with a default. -/
def getStF (r : Option AllocState) (d : AllocState) : AllocState :=
  match r with
  | some s => s
  | none => d


/-!
Concrete heap states and operation traces used to evaluate the code on
specific inputs.  Addresses are small naturals; `initState brk0 limit` is a
fresh heap whose break starts at `brk0`.
-/

/-- C1 trace, step 0: a fresh heap with the break at 16. -/
def c1s0 : AllocState := initState 16 100000000

/-- C1 trace: result of the first `tumalloc(64)`. -/
def c1a : Option (Nat × AllocState) := tumalloc c1s0 64 50

/-- C1 trace: state after the first `tumalloc(64)`. -/
def c1s1 : AllocState := getSt c1a c1s0

/-- C1 trace: state after `tufree` of the first allocation. -/
def c1s2 : AllocState := getStF (tufree c1s1 32 50) c1s1

/-- C1 trace: result of the second `tumalloc(64)`. -/
def c1b : Option (Nat × AllocState) := tumalloc c1s2 64 50

/-- A heap whose free list holds one node at 16 of size 100 (built, e.g., by
freeing a 100-byte allocation on a fresh heap and growing no further). -/
def st2 : AllocState :=
  { cells := fun a => if a = 16 then ⟨100, 0⟩ else ⟨0, 0⟩, data := fun _ => 0
    brk := 200, limit := 100000, head := 16, diag := 0 }

/-- C2: result of `tumalloc(4)` on `st2`. -/
def c2r : Option (Nat × AllocState) := tumalloc st2 4 50

/-- A heap whose free list holds one node at 16 of size 20. -/
def st4 : AllocState :=
  { cells := fun a => if a = 16 then ⟨20, 0⟩ else ⟨0, 0⟩, data := fun _ => 0
    brk := 200, limit := 100000, head := 16, diag := 0 }

/-- A free node of size 100 at address 16 whose successor field is 7, used to
exercise `split` on its own. -/
def st5 : AllocState :=
  { cells := fun a => if a = 16 then ⟨100, 7⟩ else ⟨0, 0⟩, data := fun _ => 0
    brk := 200, limit := 100000, head := 16, diag := 0 }

/-- A heap with one live block at 16 (payload 64, valid magic) and an empty
free list. -/
def st6 : AllocState :=
  { cells := fun a => if a = 16 then ⟨64, MAGIC⟩ else ⟨0, 0⟩, data := fun _ => 0
    brk := 96, limit := 1000, head := 0, diag := 0 }

/-- A heap with one live block at 16 (payload 10, valid magic) and an empty
free list. -/
def st7 : AllocState :=
  { cells := fun a => if a = 16 then ⟨10, MAGIC⟩ else ⟨0, 0⟩, data := fun _ => 0
    brk := 96, limit := 1000, head := 0, diag := 0 }

/-- C7 witness: state after the internal `tumalloc(5)` of `turealloc` on `st7`. -/
def c7s1 : AllocState := getSt (tumalloc st7 5 50) st7

/-- C7 witness: state after the `memcpy` of the old recorded size. -/
def c7s2 : AllocState :=
  { c7s1 with data := memcpyB c7s1.data 112 32 ((c7s1.cells (32 - hsz)).sz) }

/-- C7 witness: state after the final `tufree` of the original block. -/
def c7s3 : AllocState := getStF (tufree c7s2 32 50) c7s2

/-- C9 witness: state returned by `tucalloc(4, 8)` on a fresh heap. -/
def c9sA : AllocState := getSt (tucalloc (initState 16 1000) 4 8 50) (initState 16 1000)

/-- A heap with a free node of size 100 at 16 and a stale block at 200 whose
magic word (999) does not match the sentinel; 216 is its payload address. -/
def st10 : AllocState :=
  { cells := fun a => if a = 16 then ⟨100, 0⟩ else if a = 200 then ⟨10, 999⟩ else ⟨0, 0⟩
    data := fun _ => 0, brk := 300, limit := 100000, head := 16, diag := 0 }

/-- C10: state after the internal `tumalloc(4)` of `turealloc` on `st10`. -/
def c10s1 : AllocState := getSt (tumalloc st10 4 50) st10

/-- C3 trace, step 0: a fresh heap with the break at 16. -/
def c3s0 : AllocState := initState 16 100000000

/-- C3 trace: after `tumalloc(16)` (block A, header at 16, payload at 32). -/
def c3s1 : AllocState := getSt (tumalloc c3s0 16 50) c3s0

/-- C3 trace: after `tumalloc(32)` (block B, header at 48, payload at 64). -/
def c3s2 : AllocState := getSt (tumalloc c3s1 32 50) c3s1

/-- C3 trace: after `tumalloc(19088672)` (block C, header at 96, payload at 112). -/
def c3s3 : AllocState := getSt (tumalloc c3s2 19088672 50) c3s2

/-- C3 trace: after `tufree` of A; free list `[16]`. -/
def c3s4 : AllocState := getStF (tufree c3s3 32 50) c3s3

/-- C3 trace: after `tufree` of C; free list `[96, 16]`. -/
def c3s5 : AllocState := getStF (tufree c3s4 112 50) c3s4

/-- C3 trace: after `tufree` of B; `coalesce` merges A, B and C but sets
`A.next := C->next = A`, leaving the head node 16 pointing at itself. -/
def c3s6 : AllocState := getStF (tufree c3s5 64 50) c3s5

/-- C3 trace: result of `tumalloc(19088711)`, which splits the corrupted head
node; `remove_free_block` reads the self-link, so the stamped header at 16
stays reachable as free-list head and its magic word becomes the link. -/
def c3r7 : Option (Nat × AllocState) := tumalloc c3s6 19088711 50

/-- C3 trace: state after `tumalloc(19088711)`. -/
def c3s7 : AllocState := getSt c3r7 c3s6

/-- C3 trace: state after `tumalloc(19088712)` (block D via heap growth,
header at 19088784, payload at 19088800). -/
def c3s8 : AllocState := getSt (tumalloc c3s7 19088712 50) c3s7

/-- C3 trace: state after `tufree` of D; its `coalesce` call completes with no
merge and installs D as the new head. -/
def c3s9 : AllocState := getStF (tufree c3s8 19088800 50) c3s8

/-!
Helper lemmas about the model.
-/

/-- Reading a metadata record back at the written address. -/
theorem writeCell_same (m : Nat → Cell) (a : Nat) (c : Cell) : writeCell m a c a = c := by
  simp [writeCell]

/-- A point update leaves every other address unchanged. -/
theorem writeCell_ne (m : Nat → Cell) (a b : Nat) (c : Cell) (h : b ≠ a) :
    writeCell m a c b = m b := by
  simp [writeCell, h]

/-- If `do_alloc` returns the null pointer, the state is unchanged. -/
theorem do_alloc_null (s s' : AllocState) (size : Nat)
    (h : do_alloc s size = (0, s')) : s' = s := by
  unfold do_alloc at h
  by_cases hb : s.brk + (size + pad s.brk + hsz) > s.limit
  · rw [if_pos hb] at h
    exact (Prod.mk.injEq _ _ _ _ ▸ h).2.symm
  · rw [if_neg hb] at h
    simp only [Prod.mk.injEq] at h
    exfalso
    have := h.1
    simp only [hsz] at this
    omega

/-- If the first-fit loop returns the null pointer, the state is unchanged. -/
theorem mallocLoop_null (size : Nat) :
    ∀ fuel current (s s' : AllocState),
      mallocLoop s size fuel current = some (0, s') → s' = s := by
  intro fuel
  induction fuel with
  | zero => intro current s s' h; simp [mallocLoop] at h
  | succ n ih =>
    intro current s s' h
    unfold mallocLoop at h
    by_cases hc : current = 0
    · rw [if_pos hc] at h
      simp only [Option.some.injEq] at h
      exact do_alloc_null s s' size (by
        cases hda : do_alloc s size with
        | mk p st => rw [hda] at h; cases h; rfl)
    · rw [if_neg hc] at h
      by_cases hfit : size + hsz ≤ (s.cells current).sz
      · rw [if_pos hfit] at h
        cases hsp : split s current (size + hsz) with
        | none =>
          rw [hsp] at h
          simp only [Option.some.injEq, Prod.mk.injEq] at h
          exact h.2.symm
        | some p =>
          obtain ⟨s1, pointer⟩ := p
          rw [hsp] at h
          dsimp only at h
          cases hrm : remove_free_block s1 pointer n with
          | none => rw [hrm] at h; cases h
          | some s2 =>
            rw [hrm] at h
            simp only [Option.some.injEq, Prod.mk.injEq] at h
            exfalso
            have := h.1
            simp only [hsz] at this
            omega
      · rw [if_neg hfit] at h
        exact ih _ s s' h

/-- If `tumalloc` returns the null pointer, the state is unchanged: a failed
allocation mutates nothing. -/
theorem tumalloc_null_frame (s s' : AllocState) (size fuel : Nat)
    (h : tumalloc s size fuel = some (0, s')) : s' = s := by
  unfold tumalloc at h
  by_cases hh : s.head = 0
  · rw [if_pos hh] at h
    simp only [Option.some.injEq] at h
    exact do_alloc_null s s' size (by
      cases hda : do_alloc s size with
      | mk p st => rw [hda] at h; cases h; rfl)
  · rw [if_neg hh] at h
    exact mallocLoop_null size fuel s.head s s' h

/-- The padding computed by `do_alloc` lands the header on a 16-byte boundary. -/
theorem pad_aligns (b : Nat) : (b + pad b) % ALIGNMENT = 0 := by
  unfold pad ALIGNMENT
  by_cases h : b % 16 = 0
  · rw [if_pos h]; simpa using h
  · rw [if_neg h]
    have hq := Nat.div_add_mod b 16
    have hlt : b % 16 < 16 := Nat.mod_lt _ (by omega)
    have : b + (16 - b % 16) = 16 * (b / 16 + 1) := by omega
    rw [this, Nat.mul_mod_right]

/-!
Claim theorems.
-/

/-- C1: the claim says `Allocate(s)`; `Free`; `Allocate(s)` is served from the
free list with no additional OS memory.  The code refutes this: with `s = 64`
on a fresh heap, the first allocation returns payload 32 and grows the break
to 96; after the free the 64-byte node sits on the free list (head 16), but
the second `Allocate(64)` fails the fit test `64 + sizeof(header) <= 64`
against that node, falls through to `do_alloc`, and grows the break again to
176 while the freed node stays on the free list unused. -/
theorem c1_roundtrip_regrows_heap :
    getPtr c1a = 32 ∧ c1s1.brk = 96
    ∧ c1s2.head = 16 ∧ (c1s2.cells 16).sz = 64 ∧ c1s2.brk = 96
    ∧ getPtr c1b = 112 ∧ (getSt c1b c1s2).brk = 176 ∧ (getSt c1b c1s2).head = 16 := by
  decide

/-- C2: the claim says a first-fit match splits the node and leaves the split
remainder reachable from the free list.  The code refutes the parenthetical:
on a free list holding one node of size 100 at 16, `tumalloc(4)` matches,
`split` writes the remainder node (size 64) at 52 without linking it
(`split` never sets `block->next` to the remainder), and
`remove_free_block` then unlinks the matched node, so the resulting free
list is empty (head 0) and the remainder at 52 is unreachable — leaked, with
no heap growth (`brk` still 200). -/
theorem c2_split_remainder_unreachable :
    st2.head = 16 ∧ (st2.cells 16).sz = 100
    ∧ getPtr c2r = 32 ∧ (getSt c2r st2).head = 0
    ∧ ((getSt c2r st2).cells 52).sz = 64 ∧ ((getSt c2r st2).cells 52).nxt = 0
    ∧ (getSt c2r st2).brk = 200 := by
  decide

/-- C3: the claim says the free list never holds two address-adjacent nodes
after a `coalesce` completes, hence after any allocate/free sequence.  The
9-operation trace `c3s0 … c3s9` refutes it: freeing blocks A, C, B (in that
order) makes `coalesce` execute `block->next = next->next`, which sets the
merged node 16 to point at itself; the following `tumalloc(19088711)` then
splits that corrupted node, `remove_free_block` re-installs 16 as head from
its self-link, and stamping the header writes `MAGIC = 19088743` into the
link field, so the free list reaches the untouched (zero) record at address
19088743.  After one more allocation and a final `tufree` whose `coalesce`
completes without merging, the free list is `19088784 → 16 → 19088743` and
nodes 16 and 19088743 are address-adjacent: `16 + size(16) + hsz = 19088743`. -/
theorem c3_adjacent_nodes_in_free_list :
    tufree c3s8 19088800 50 = some c3s9
    ∧ c3s9.head = 19088784
    ∧ (c3s9.cells 19088784).nxt = 16
    ∧ (c3s9.cells 16).nxt = 19088743
    ∧ (c3s9.cells 19088743).nxt = 0
    ∧ 16 + (c3s9.cells 16).sz + hsz = 19088743 :=
  ⟨rfl, by decide⟩

/-- C4: the claim says that when `split` fails on a too-small block the
caller falls back to heap growth.  The code refutes the fallback: on a free
list holding one node of size 20, `tumalloc(4)` passes the fit test
(`4 + 16 ≤ 20`), `split` fails (`20 < 20 + 16`) and returns NULL, and
`tumalloc` returns NULL to the user with the state unchanged — even though
`do_alloc` would have succeeded (it returns payload 224 on this state). -/
theorem c4_split_fail_returns_null :
    4 + hsz ≤ (st4.cells 16).sz
    ∧ tumalloc st4 4 50 = some (0, st4)
    ∧ (do_alloc st4 4).1 = 224 :=
  ⟨by decide, rfl, by decide⟩

/-- C5: splitting a free block of size `N` at target `T` with
`N ≥ T + header_size + 1` succeeds, returns the block itself, sets the left
size field to exactly `T`, writes the remainder at `block + T + header_size`
with size exactly `N - T - header_size`, and gives the remainder the
original block's successor link (the left block's link is also untouched). -/
theorem c5_split_correct (s : AllocState) (block T N : Nat)
    (hN : (s.cells block).sz = N) (h : T + hsz + 1 ≤ N) :
    (split s block T).map
        (fun p => (p.2, (p.1.cells block).sz, (p.1.cells block).nxt,
          (p.1.cells (block + T + hsz)).sz, (p.1.cells (block + T + hsz)).nxt))
      = some (block, T, (s.cells block).nxt, N - T - hsz, (s.cells block).nxt) := by
  have hg : ¬ ((s.cells block).sz < T + hsz) := by
    rw [hN]; simp only [hsz] at h ⊢; omega
  have hne : block + T + hsz ≠ block := by simp only [hsz]; omega
  unfold split
  rw [if_neg hg]
  simp only [Option.map_some']
  rw [updSz, writeCell_ne _ _ _ _ hne]
  rw [writeCell_same]
  simp [writeCell, hne, Ne.symm hne, hN]

/-- Witness for C5 at the concrete node `st5` (size 100, successor 7),
target 20. -/
theorem c5_split_correct_witness :
    (st5.cells 16).sz = 100 ∧ 20 + hsz + 1 ≤ 100
    ∧ (split st5 16 20).map
        (fun p => (p.2, (p.1.cells 16).sz, (p.1.cells 16).nxt,
          (p.1.cells (16 + 20 + hsz)).sz, (p.1.cells (16 + 20 + hsz)).nxt))
      = some (16, 20, (st5.cells 16).nxt, 100 - 20 - hsz, (st5.cells 16).nxt) :=
  ⟨by decide, by decide, c5_split_correct st5 16 20 100 (by decide) (by decide)⟩

/-- C6: `tufree` is a no-op on NULL; on a header whose magic word differs
from the sentinel it silently declines, returning the state unchanged
(nothing reported, free list and heap untouched); and exactly when the magic
matches, the header is reinterpreted in place as a free node (size copied
from the header, link set to the old head), `coalesce` runs on it, and the
coalesced result becomes the new free-list head. -/
theorem c6_tufree_spec (s : AllocState) (ptr fuel blk : Nat) (s2 : AllocState) :
    (ptr = 0 → tufree s ptr fuel = some s)
    ∧ (ptr ≠ 0 → (s.cells (ptr - hsz)).nxt ≠ MAGIC → tufree s ptr fuel = some s)
    ∧ (ptr ≠ 0 → (s.cells (ptr - hsz)).nxt = MAGIC →
        coalesce (pushedState s (ptr - hsz)) (ptr - hsz) fuel = some (blk, s2) →
        tufree s ptr fuel = some { s2 with head := blk }) := by
  refine ⟨?_, ?_, ?_⟩
  · intro h0
    unfold tufree
    rw [if_pos h0]
  · intro h0 hmagic
    unfold tufree
    rw [if_neg h0, if_neg hmagic]
  · intro h0 hmagic hco
    unfold tufree
    rw [if_neg h0, if_pos hmagic]
    unfold pushedState at hco
    simp only [hco]

/-- Witness for C6: the NULL case, an invalid-magic pointer (216 on `st6`),
and a valid free of the live block at payload 32 on `st6`. -/
theorem c6_tufree_spec_witness :
    tufree st6 0 50 = some st6
    ∧ ((st6.cells (216 - hsz)).nxt ≠ MAGIC ∧ tufree st6 216 50 = some st6)
    ∧ ((st6.cells (32 - hsz)).nxt = MAGIC
        ∧ tufree st6 32 50 = some { pushedState st6 16 with head := 16 }) :=
  ⟨(c6_tufree_spec st6 0 50 0 st6).1 rfl,
   ⟨by decide, (c6_tufree_spec st6 216 50 0 st6).2.1 (by decide) (by decide)⟩,
   ⟨by decide, (c6_tufree_spec st6 32 50 16 (pushedState st6 16)).2.2
      (by decide) (by decide) rfl⟩⟩

/-- C7: on a valid (sentinel-matching) header, when the fresh allocation
succeeds `turealloc` copies the OLD recorded size's worth of payload bytes
(`memcpyB … ((s1.cells (ptr - hsz)).sz)`, not `min(old, new)`), frees the
original block, and returns the new pointer; when the fresh allocation
returns NULL, it returns NULL and the state — in particular the original
block — is completely unchanged. -/
theorem c7_turealloc_spec (s s1 r1 s3 : AllocState) (ptr new_size fuel np : Nat) :
    (ptr ≠ 0 → tumalloc s new_size fuel = some (np, s1) → np ≠ 0 →
      (s1.cells (ptr - hsz)).nxt = MAGIC →
      tufree { s1 with data := memcpyB s1.data np ptr ((s1.cells (ptr - hsz)).sz) } ptr fuel
        = some s3 →
      turealloc s ptr new_size fuel = some (.ptr np, s3))
    ∧ (ptr ≠ 0 → tumalloc s new_size fuel = some (0, r1) →
      turealloc s ptr new_size fuel = some (.ptr 0, r1) ∧ r1 = s) := by
  constructor
  · intro h0 hma hnp hmagic hfr
    unfold turealloc
    rw [if_neg h0, hma]
    dsimp only
    rw [if_neg hnp, if_pos hmagic]
    rw [hfr]
  · intro h0 hma
    refine ⟨?_, tumalloc_null_frame s r1 new_size fuel hma⟩
    unfold turealloc
    rw [if_neg h0, hma]
    dsimp only
    rw [if_pos rfl]

/-- Witness for C7: a successful `turealloc(32, 5)` of the live 10-byte block
on `st7` (copying 10 bytes, freeing the old block, returning 112), and a
failing reallocation on `st4` (the internal allocation returns NULL and the
state is unchanged). -/
theorem c7_turealloc_spec_witness :
    ((c7s1.cells (32 - hsz)).nxt = MAGIC
      ∧ turealloc st7 32 5 50 = some (.ptr 112, c7s3))
    ∧ (tumalloc st4 4 50 = some (0, st4)
      ∧ turealloc st4 216 4 50 = some (.ptr 0, st4)) := by
  have h1 : tumalloc st7 5 50 = some (112, c7s1) := rfl
  have h2 : tufree c7s2 32 50 = some c7s3 := rfl
  have h4 : tumalloc st4 4 50 = some (0, st4) := rfl
  exact ⟨⟨by decide,
    (c7_turealloc_spec st7 c7s1 st7 c7s3 32 5 50 112).1 (by decide) h1 (by decide)
      (by decide) h2⟩,
   ⟨h4, ((c7_turealloc_spec st4 st4 st4 st4 216 4 50 0).2 (by decide) h4).1⟩⟩

/-- C8: on success `do_alloc` returns the address right after the stamped
header, grows the break by exactly `size + padding + header_size`, writes the
header `⟨size, MAGIC⟩` at the padded offset (a 16-byte-aligned address),
changes no other metadata record and not the free-list head; when the break
adjustment would pass the OS limit it returns NULL with the state unchanged;
and the returned pointer and new break never depend on the free-list head. -/
theorem c8_do_alloc_spec (s : AllocState) (size a h' : Nat) :
    (s.brk + (size + pad s.brk + hsz) ≤ s.limit →
      ((do_alloc s size).1 = s.brk + pad s.brk + hsz
        ∧ (do_alloc s size).2.brk = s.brk + (size + pad s.brk + hsz)
        ∧ (do_alloc s size).2.cells (s.brk + pad s.brk) = ⟨size, MAGIC⟩
        ∧ (s.brk + pad s.brk) % ALIGNMENT = 0
        ∧ (do_alloc s size).2.head = s.head
        ∧ (a ≠ s.brk + pad s.brk → (do_alloc s size).2.cells a = s.cells a)))
    ∧ (s.limit < s.brk + (size + pad s.brk + hsz) → do_alloc s size = (0, s))
    ∧ ((do_alloc { s with head := h' } size).1 = (do_alloc s size).1
        ∧ (do_alloc { s with head := h' } size).2.brk = (do_alloc s size).2.brk) := by
  refine ⟨?_, ?_, ?_⟩
  · intro hok
    unfold do_alloc
    rw [if_neg (by omega)]
    refine ⟨by ring, by dsimp, ?_, pad_aligns s.brk, rfl, ?_⟩
    · exact writeCell_same _ _ _
    · intro ha
      exact writeCell_ne _ _ _ _ ha
  · intro hfail
    unfold do_alloc
    rw [if_pos (by omega)]
  · unfold do_alloc
    by_cases hok : s.brk + (size + pad s.brk + hsz) > s.limit
    · rw [if_pos hok, if_pos hok]
      exact ⟨rfl, rfl⟩
    · rw [if_neg hok, if_neg hok]
      exact ⟨rfl, rfl⟩

/-- Witness for C8: success on a fresh heap with room (`limit = 1000`),
failure on a fresh heap with `limit = 20`, and head-independence. -/
theorem c8_do_alloc_spec_witness :
    ((initState 16 1000).brk + (5 + pad (initState 16 1000).brk + hsz) ≤ 1000
      ∧ (do_alloc (initState 16 1000) 5).1 = 32
      ∧ (do_alloc (initState 16 1000) 5).2.brk = 37
      ∧ (do_alloc (initState 16 1000) 5).2.cells 16 = ⟨5, MAGIC⟩
      ∧ (16 + pad 16) % ALIGNMENT = 0
      ∧ (do_alloc (initState 16 1000) 5).2.head = 0
      ∧ (do_alloc (initState 16 1000) 5).2.cells 0 = (initState 16 1000).cells 0)
    ∧ ((initState 16 20).limit < 16 + (5 + pad 16 + hsz)
      ∧ do_alloc (initState 16 20) 5 = (0, initState 16 20))
    ∧ ((do_alloc { initState 16 1000 with head := 7 } 5).1
        = (do_alloc (initState 16 1000) 5).1) := by
  have hA := c8_do_alloc_spec (initState 16 1000) 5 0 7
  have hB := c8_do_alloc_spec (initState 16 20) 5 0 7
  have h1 := hA.1 (by decide)
  refine ⟨⟨by decide, ?_, ?_, ?_, h1.2.2.2.1, h1.2.2.2.2.1, h1.2.2.2.2.2 (by decide)⟩,
          ⟨by decide, hB.2.1 (by decide)⟩, hA.2.2.1⟩
  · exact h1.1
  · exact h1.2.1
  · exact h1.2.2.1

/-- C9: `tucalloc(num, size)` allocates `size * num % 2^64` bytes through
`tumalloc` (the product is not overflow-checked), diverges or returns NULL
exactly when that underlying allocation does (in the NULL case with the
state unchanged), and on success every payload byte is zero and the returned
pointer is the one `tumalloc` produced. -/
theorem c9_tucalloc_spec (s s' : AllocState) (num size fuel p x : Nat) :
    (tucalloc s num size fuel = none ↔ tumalloc s (size * num % W64) fuel = none)
    ∧ (tucalloc s num size fuel = some (0, s') →
        s' = s ∧ tumalloc s (size * num % W64) fuel = some (0, s))
    ∧ (tumalloc s (size * num % W64) fuel = some (0, s) →
        tucalloc s num size fuel = some (0, s))
    ∧ (tucalloc s num size fuel = some (p, s') → p ≠ 0 → p ≤ x →
        x < p + size * num % W64 →
        s'.data x = 0 ∧ (tumalloc s (size * num % W64) fuel).map Prod.fst = some p) := by
  refine ⟨?_, ?_, ?_, ?_⟩
  · unfold tucalloc
    cases htm : tumalloc s (size * num % W64) fuel with
    | none => simp
    | some q =>
      obtain ⟨q1, s1⟩ := q
      by_cases hq : q1 = 0
      · subst hq; simp
      · dsimp only
        rw [if_neg hq]
        simp
  · intro h
    unfold tucalloc at h
    cases htm : tumalloc s (size * num % W64) fuel with
    | none => rw [htm] at h; cases h
    | some q =>
      obtain ⟨q1, s1⟩ := q
      rw [htm] at h
      dsimp only at h
      by_cases hq : q1 = 0
      · subst hq
        rw [if_pos rfl] at h
        simp only [Option.some.injEq, Prod.mk.injEq] at h
        have hfr := tumalloc_null_frame s s1 (size * num % W64) fuel htm
        exact ⟨h.2.symm.trans hfr, by rw [hfr]⟩
      · rw [if_neg hq] at h
        simp only [Option.some.injEq, Prod.mk.injEq] at h
        exact absurd h.1 hq
  · intro htm
    unfold tucalloc
    rw [htm]
    rfl
  · intro h hp hx1 hx2
    unfold tucalloc at h
    cases htm : tumalloc s (size * num % W64) fuel with
    | none => rw [htm] at h; cases h
    | some q =>
      obtain ⟨q1, s1⟩ := q
      rw [htm] at h
      dsimp only at h
      by_cases hq : q1 = 0
      · subst hq
        rw [if_pos rfl] at h
        simp only [Option.some.injEq, Prod.mk.injEq] at h
        exact absurd h.1.symm hp
      · rw [if_neg hq] at h
        simp only [Option.some.injEq, Prod.mk.injEq] at h
        obtain ⟨hq1, hs'⟩ := h
        subst hq1
        constructor
        · rw [← hs']
          dsimp [memsetB]
          rw [if_pos ⟨hx1, hx2⟩]
        · rfl

/-- Witness for C9: `tucalloc(4, 8)` on a fresh heap with room (payload byte
40 is zero, pointer 32 comes from `tumalloc(32)`), and on a fresh heap with
`limit = 20` where the underlying allocation fails. -/
theorem c9_tucalloc_spec_witness :
    (tucalloc (initState 16 1000) 4 8 50 = none
      ↔ tumalloc (initState 16 1000) (8 * 4 % W64) 50 = none)
    ∧ (c9sA.data 40 = 0
      ∧ (tumalloc (initState 16 1000) (8 * 4 % W64) 50).map Prod.fst = some 32)
    ∧ (tucalloc (initState 16 20) 4 8 50 = some (0, initState 16 20)
      ∧ tumalloc (initState 16 20) (8 * 4 % W64) 50 = some (0, initState 16 20)) := by
  have hA : tucalloc (initState 16 1000) 4 8 50 = some (32, c9sA) := rfl
  have hB : tumalloc (initState 16 20) (8 * 4 % W64) 50 = some (0, initState 16 20) := rfl
  have hBcal := (c9_tucalloc_spec (initState 16 20) (initState 16 20) 4 8 50 0 0).2.2.1 hB
  exact ⟨(c9_tucalloc_spec (initState 16 1000) c9sA 4 8 50 32 40).1,
    (c9_tucalloc_spec (initState 16 1000) c9sA 4 8 50 32 40).2.2.2 hA
      (by decide) (by decide) (by decide),
    hBcal, hB⟩

/-- C10: the claim says that on an invalid-magic source pointer (with the
fresh allocation succeeding) `turealloc` leaves the free list unchanged.
Refuted: on `st10` (free list `[16]` of size 100, stale block at 200,
payload 216), `turealloc(216, 4)` first runs `tumalloc(4)`, which removes
the node 16 from the free list, so the final head is 0 while `st10`'s head
was 16; the call then only prints the corruption diagnostic (`diag = 1`) and
falls off the end (`unspecified`). -/
theorem c10_counterexample :
    st10.head = 16
    ∧ (turealloc st10 216 4 50).map (fun r => (r.1, r.2.head, r.2.diag))
        = some (.unspecified, 0, 1) := by
  decide

/-- C10 (amended): on an invalid-magic source pointer, after the fresh
allocation succeeds `turealloc` only emits the diagnostic: the final state
is exactly the post-allocation state with the diagnostic count incremented —
no bytes are copied, the original block is not freed, and nothing (free list
included) is modified beyond what the fresh allocation itself already did;
the return value is the unspecified fall-through. -/
theorem c10_invalid_magic_frame (s s1 : AllocState) (ptr new_size fuel np : Nat)
    (h0 : ptr ≠ 0) (h1 : tumalloc s new_size fuel = some (np, s1)) (h2 : np ≠ 0)
    (h3 : (s1.cells (ptr - hsz)).nxt ≠ MAGIC) :
    turealloc s ptr new_size fuel
      = some (.unspecified, { s1 with diag := s1.diag + 1 }) := by
  unfold turealloc
  rw [if_neg h0, h1]
  dsimp only
  rw [if_neg h2, if_neg h3]

/-- Witness for the amended C10 on `st10` with pointer 216. -/
theorem c10_invalid_magic_frame_witness :
    ((c10s1.cells (216 - hsz)).nxt ≠ MAGIC)
    ∧ turealloc st10 216 4 50
        = some (.unspecified, { c10s1 with diag := c10s1.diag + 1 }) := by
  have h1 : tumalloc st10 4 50 = some (32, c10s1) := rfl
  exact ⟨by decide,
    c10_invalid_magic_frame st10 c10s1 216 4 50 32 (by decide) h1 (by decide) (by decide)⟩

end Alloc
